import Mathlib

/-!
Verification development for the Solar-Vision repository.

The front end is embedded shallowly: JavaScript strings become `List Char`
(wrapped in `String`), JavaScript numbers become `ℚ`, the static
neighborhood table becomes an association list in declaration order, and the
effectful fetch in `ForecastResults` becomes a pure function parameterised
by the HTTP collaborator's response function.  The backend pipeline
(WeatherAggregator, MonthlyEstimator) is not part of the repository's
`src/` tree; those components are modelled from the specification and are
marked as such in their doc comments.
-/

/-- ASCII approximation of the whitespace class removed by JS
`String.prototype.trim` (space, tab, line feed, carriage return). -/
def isJsSpace (c : Char) : Bool :=
  decide (c.toNat = 32 ∨ c.toNat = 9 ∨ c.toNat = 10 ∨ c.toNat = 13)

/-- ASCII case folding performed by JS `String.prototype.toLowerCase`
on the character range relevant to the location table. -/
def jsCharLower (c : Char) : Char :=
  if 65 ≤ c.toNat ∧ c.toNat ≤ 90 then Char.ofNat (c.toNat + 32) else c

/-- Removal of trailing whitespace, the second half of `trim`. -/
def trimRight (l : List Char) : List Char :=
  (l.reverse.dropWhile isJsSpace).reverse

/-- Embedding of JS `String.prototype.trim`: drop leading and trailing
whitespace. -/
def jsTrim (l : List Char) : List Char :=
  trimRight (l.dropWhile isJsSpace)

/-- Embedding of JS `String.prototype.toLowerCase` (ASCII range). -/
def jsToLower (l : List Char) : List Char :=
  l.map jsCharLower

/-- `location.trim().toLowerCase()` from `getCoordsFromLocationString`. -/
def normalizeLoc (s : String) : List Char :=
  jsToLower (jsTrim s.data)

/-- `hay.startsWith(needle)` on character lists. -/
def listStartsWith : List Char → List Char → Bool
  | _, [] => true
  | [], _ :: _ => false
  | h :: hs, n :: ns => h == n && listStartsWith hs ns

/-- Embedding of JS `String.prototype.includes`: `needle` occurs as a
contiguous substring of `hay`. -/
def jsIncludes (hay needle : List Char) : Bool :=
  match hay with
  | [] => listStartsWith [] needle
  | h :: t => listStartsWith (h :: t) needle || jsIncludes t needle

/-- A latitude/longitude pair, as produced by the lookup in
`src/pages/Index.tsx`. -/
structure Coord where
  lat : ℚ
  lon : ℚ
deriving DecidableEq

/-- The `'pune'` entry of the table, also the hard fallback
`locationLookup['pune']` of `getCoordsFromLocationString`. -/
def puneCoord : Coord := ⟨18.5204, 73.8567⟩

/-- The `locationLookup` record of `src/pages/Index.tsx`, kept in
declaration order (JS `for...in` iterates these string keys in insertion
order). -/
def locationLookup : List (String × Coord) :=
  [ ("pune", puneCoord),
    ("kothrud", ⟨18.5074, 73.8095⟩),
    ("hinjewadi", ⟨18.5912, 73.7389⟩),
    ("viman nagar", ⟨18.5679, 73.9143⟩),
    ("pimpri", ⟨18.6277, 73.8138⟩),
    ("chinchwad", ⟨18.6277, 73.8138⟩),
    ("pimpri-chinchwad", ⟨18.6277, 73.8138⟩),
    ("hadapsar", ⟨18.5089, 73.9244⟩),
    ("aundh", ⟨18.5529, 73.8091⟩),
    ("wakad", ⟨18.6015, 73.7663⟩),
    ("baner", ⟨18.5590, 73.7798⟩),
    ("pune station", ⟨18.5283, 73.8754⟩),
    ("swargate", ⟨18.5029, 73.8634⟩),
    ("kharadi", ⟨18.5528, 73.9268⟩),
    ("katraj", ⟨18.4520, 73.8604⟩) ]

/-- `locationLookup[normalizedLocation]`: exact key access on the table. -/
def lookupExact (key : List Char) : Option Coord :=
  (locationLookup.find? (fun p => p.1.data == key)).map (fun p => p.2)

/-- Body of `getCoordsFromLocationString` after the input has been
normalized: exact key access, then the `for...in` substring scan in
insertion order, then the `locationLookup['pune']` fallback. -/
def resolveNormalized (normalizedLocation : List Char) : Coord :=
  match lookupExact normalizedLocation with
  | some c => c
  | none =>
    match locationLookup.find? (fun p => jsIncludes normalizedLocation p.1.data) with
    | some p => p.2
    | none => puneCoord

/-- `getCoordsFromLocationString` from `src/pages/Index.tsx`. -/
def getCoordsFromLocationString (location : String) : Coord :=
  resolveNormalized (normalizeLoc location)

/-- The data collected by `ForecastForm` (`FormInputData` in
`src/components/ForecastForm.tsx`). -/
structure FormInputData where
  location : String
  acres : ℚ
  consumption : ℚ
deriving DecidableEq

/-- `handleSubmit` of `ForecastForm`: `onSubmit(formData)` is invoked
exactly when `formData.acres > 0 && formData.consumption > 0 &&
formData.location.trim() !== ""`; the result is the argument passed to
`onSubmit`, or `none` when the submission is rejected with an alert. -/
def handleSubmit (formData : FormInputData) : Option FormInputData :=
  if 0 < formData.acres ∧ 0 < formData.consumption ∧ jsTrim formData.location.data ≠ [] then
    some formData
  else
    none

/-- `ForecastDataForResults` from `src/pages/Index.tsx`: the resolved data
handed to `ForecastResults`. -/
structure ForecastDataForResults where
  latitude : ℚ
  longitude : ℚ
  acres : ℚ
  consumption : ℚ
  location : String
deriving DecidableEq

/-- `handleFormSubmit` of `src/pages/Index.tsx`: resolve the location
string and assemble the data object for the results page. -/
def handleFormSubmit (data : FormInputData) : ForecastDataForResults :=
  let coords := getCoordsFromLocationString data.location
  { latitude := coords.lat
    longitude := coords.lon
    acres := data.acres
    consumption := data.consumption
    location := data.location }

/-- The JSON body `requestData` posted to the `/predict` endpoint by
`fetchPrediction`; it has exactly these three fields. -/
structure RequestBody where
  latitude : ℚ
  longitude : ℚ
  acres : ℚ
deriving DecidableEq

/-- The `predicted_kwh_month` field of the response JSON, as classified by
`typeof result.predicted_kwh_month === 'number' && !isNaN(...)`: the field
may be absent (or the body unparseable/null), present but not a number,
the number NaN, or a finite number. -/
inductive JsonNumField where
  | absent
  | nonNumber
  | nanNumber
  | num (value : ℚ)
deriving DecidableEq

/-- The HTTP collaborator's answer: a status code and the classification
of the `predicted_kwh_month` field of the JSON body. -/
structure ApiResponse where
  status : Nat
  predictedKwhMonth : JsonNumField
deriving DecidableEq

/-- `Response.ok` of the fetch API: status in the range 200 to 299. -/
def ApiResponse.ok (r : ApiResponse) : Bool :=
  decide (200 ≤ r.status ∧ r.status ≤ 299)

/-- The observable outcome of one run of the `fetchPrediction` effect in
`ForecastResults`: the request body sent (if any), the stored
`prediction.predicted_kwh_month` state, and the stored `error` state. -/
structure FetchResult where
  request : Option RequestBody
  prediction : Option ℚ
  error : Option String
deriving DecidableEq

/-- `fetchPrediction` from `src/components/ForecastResults.tsx`, with the
HTTP collaborator passed in as the function `api` from request body to
response.  Follows the source: reject non-positive acres before any
network work, otherwise POST exactly latitude/longitude/acres, throw on
`!response.ok`, and accept the body only when `predicted_kwh_month` is a
number that is not NaN. -/
def fetchPrediction (data : ForecastDataForResults)
    (api : RequestBody → ApiResponse) : FetchResult :=
  if data.acres = 0 ∨ data.acres ≤ 0 then
    { request := none
      prediction := none
      error := some "Invalid input: Acres must be a positive number." }
  else
    let requestData : RequestBody :=
      { latitude := data.latitude, longitude := data.longitude, acres := data.acres }
    let response := api requestData
    if !response.ok then
      { request := some requestData
        prediction := none
        error := some "API request failed" }
    else
      match response.predictedKwhMonth with
      | .num v =>
          { request := some requestData, prediction := some v, error := none }
      | _ =>
          { request := some requestData
            prediction := none
            error := some "Invalid prediction format received from API." }

/-- `Math.round` of JS: round half toward positive infinity. -/
def jsRound (q : ℚ) : ℤ :=
  ⌊q + 1 / 2⌋

/-- The consumption-coverage percentage displayed by `ForecastResults`:
`data.consumption > 0 ? Math.max(0, Math.min(100,
Math.round((actualOutput / data.consumption) * 100))) : 0`. -/
def coveragePercent (actualOutput consumption : ℚ) : ℤ :=
  if 0 < consumption then
    max 0 (min 100 (jsRound (actualOutput / consumption * 100)))
  else
    0

/-- Error kinds of the specified backend pipeline. -/
inductive PipelineError where
  | emptyForecastError
  | invalidLandAreaError
deriving DecidableEq

/-- One hourly weather sample; the grouping key is the calendar date of
its timestamp, kept here as an integer day number. -/
structure HourlySample where
  date : ℤ
  ambientTemperature : ℚ
  irradiance : ℚ
deriving DecidableEq

/-- One aggregated day of weather features. -/
structure DailyWeatherFeature where
  date : ℤ
  meanTemperature : ℚ
  irradianceEnergy : ℚ
deriving DecidableEq

/-- Aggregation of one contiguous same-date group of hourly samples:
`mean_temperature` is the arithmetic mean of the temperatures present and
`irradiance_energy` is the hourly Riemann sum divided by 1000 (W·h to
kWh).  The empty-group default is never reached: `List.splitBy` only
emits nonempty groups. -/
def dailyOfGroup (g : List HourlySample) : DailyWeatherFeature :=
  { date := (g.headD ⟨0, 0, 0⟩).date
    meanTemperature := (g.map (fun s => s.ambientTemperature)).sum / g.length
    irradianceEnergy := (g.map (fun s => s.irradiance)).sum / 1000 }

/-- Modelled from the spec: the backend component `WeatherAggregator`
(spec section 4.1) is not under `src/`.  `aggregate` groups the ordered
hourly sequence by the date component of each timestamp into contiguous
groups, emits one `DailyWeatherFeature` per group (partial days
included), and fails with `EmptyForecastError` on an empty input. -/
def WeatherAggregator.aggregate (hourly : List HourlySample) :
    Except PipelineError (List DailyWeatherFeature) :=
  if hourly.isEmpty then
    .error .emptyForecastError
  else
    .ok ((hourly.splitBy (fun a b => a.date == b.date)).map dailyOfGroup)

/-- One per-day prediction of the backend model. -/
structure DailyYield where
  date : ℤ
  kwhPerAcre : ℚ
deriving DecidableEq

/-- The final monthly figure of the pipeline. -/
structure MonthlyEstimate where
  predictedKwhMonth : ℚ
deriving DecidableEq

/-- Modelled from the spec: the backend component `MonthlyEstimator`
(spec section 4.4) is not under `src/`.  `estimate` fails with
`EmptyForecastError` on an empty sequence of daily yields and otherwise
returns `avg_daily * acres * 30.4` where `avg_daily` is the arithmetic
mean of the per-day `kwh_per_acre` values (acres > 0 is an invariant
validated upstream). -/
def MonthlyEstimator.estimate (dailyYields : List DailyYield) (acres : ℚ) :
    Except PipelineError MonthlyEstimate :=
  if dailyYields.isEmpty then
    .error .emptyForecastError
  else
    let avgDaily := (dailyYields.map (fun y => y.kwhPerAcre)).sum / dailyYields.length
    .ok ⟨avgDaily * acres * 30.4⟩


/-! ### Helper lemmas about the string embedding -/

theorem jsCharLower_toNat_of_upper (n : Nat) (h1 : 65 ≤ n) (h2 : n ≤ 90) :
    (Char.ofNat (n + 32)).toNat = n + 32 := by
  interval_cases n <;> decide

theorem isJsSpace_jsCharLower (c : Char) :
    isJsSpace (jsCharLower c) = isJsSpace c := by
  unfold jsCharLower
  split
  case isTrue h =>
    obtain ⟨h1, h2⟩ := h
    unfold isJsSpace
    rw [jsCharLower_toNat_of_upper c.toNat h1 h2, decide_eq_decide]
    omega
  case isFalse h => rfl

theorem jsCharLower_idem (c : Char) :
    jsCharLower (jsCharLower c) = jsCharLower c := by
  by_cases h : 65 ≤ c.toNat ∧ c.toNat ≤ 90
  · obtain ⟨h1, h2⟩ := h
    have e : jsCharLower c = Char.ofNat (c.toNat + 32) := by
      unfold jsCharLower
      rw [if_pos ⟨h1, h2⟩]
    rw [e]
    unfold jsCharLower
    rw [if_neg]
    rw [jsCharLower_toNat_of_upper c.toNat h1 h2]
    omega
  · have e : jsCharLower c = c := by
      unfold jsCharLower
      rw [if_neg h]
    rw [e, e]

theorem jsToLower_idem (l : List Char) :
    jsToLower (jsToLower l) = jsToLower l := by
  unfold jsToLower
  rw [List.map_map]
  exact List.map_congr_left fun c _ => jsCharLower_idem c

theorem dropWhile_dropWhile_self {α : Type} (p : α → Bool) (l : List α) :
    (l.dropWhile p).dropWhile p = l.dropWhile p := by
  induction l with
  | nil => rfl
  | cons a t ih =>
    rw [List.dropWhile_cons]
    split
    case isTrue h => exact ih
    case isFalse h => rw [List.dropWhile_cons, if_neg h]

theorem trimRight_idem (l : List Char) :
    trimRight (trimRight l) = trimRight l := by
  unfold trimRight
  rw [List.reverse_reverse, dropWhile_dropWhile_self]

theorem trimRight_append_eq (l : List Char) :
    trimRight l ++ (l.reverse.takeWhile isJsSpace).reverse = l := by
  unfold trimRight
  rw [← List.reverse_append, List.takeWhile_append_dropWhile, List.reverse_reverse]

theorem dropWhile_length_le {α : Type} (p : α → Bool) (l : List α) :
    (l.dropWhile p).length ≤ l.length := by
  induction l with
  | nil => simp
  | cons a t ih =>
    rw [List.dropWhile_cons]
    split
    · exact Nat.le_succ_of_le ih
    · exact Nat.le_refl _

theorem dropWhile_cons_self {α : Type} (p : α → Bool) (a : α) (t : List α)
    (h : (a :: t).dropWhile p = a :: t) : p a = false := by
  by_contra hne
  have hp : p a = true := by
    cases hpa : p a
    · exact absurd hpa hne
    · rfl
  rw [List.dropWhile_cons, if_pos hp] at h
  have h1 := dropWhile_length_le p t
  have h2 := congrArg List.length h
  rw [List.length_cons] at h2
  omega

theorem dropWhile_trimRight_of_self (l : List Char)
    (h : l.dropWhile isJsSpace = l) :
    (trimRight l).dropWhile isJsSpace = trimRight l := by
  cases e : trimRight l with
  | nil => rfl
  | cons a s =>
    obtain ⟨r, hx⟩ : ∃ r, l = a :: (s ++ r) := by
      refine ⟨(l.reverse.takeWhile isJsSpace).reverse, ?_⟩
      conv_lhs => rw [← trimRight_append_eq l]
      rw [e]
      rfl
    rw [hx] at h
    have hpa : isJsSpace a = false := dropWhile_cons_self isJsSpace a (s ++ r) h
    rw [List.dropWhile_cons, if_neg (by simp [hpa])]

theorem jsTrim_idem (l : List Char) :
    jsTrim (jsTrim l) = jsTrim l := by
  unfold jsTrim
  rw [dropWhile_trimRight_of_self (l.dropWhile isJsSpace)
        (dropWhile_dropWhile_self isJsSpace l),
      trimRight_idem]

theorem isJsSpace_comp_jsCharLower :
    (isJsSpace ∘ jsCharLower) = isJsSpace :=
  funext fun c => isJsSpace_jsCharLower c

theorem dropWhile_jsToLower (l : List Char) :
    (jsToLower l).dropWhile isJsSpace = jsToLower (l.dropWhile isJsSpace) := by
  unfold jsToLower
  rw [List.dropWhile_map, isJsSpace_comp_jsCharLower]

theorem trimRight_jsToLower (l : List Char) :
    trimRight (jsToLower l) = jsToLower (trimRight l) := by
  unfold trimRight jsToLower
  rw [← List.map_reverse, List.dropWhile_map, isJsSpace_comp_jsCharLower,
    List.map_reverse]

theorem jsTrim_jsToLower (l : List Char) :
    jsTrim (jsToLower l) = jsToLower (jsTrim l) := by
  unfold jsTrim
  rw [dropWhile_jsToLower, trimRight_jsToLower]

theorem normalizeLoc_idem (s : String) :
    normalizeLoc (String.mk (normalizeLoc s)) = normalizeLoc s := by
  show jsToLower (jsTrim (jsToLower (jsTrim s.data))) = jsToLower (jsTrim s.data)
  rw [jsTrim_jsToLower, jsToLower_idem, jsTrim_idem]

/-! ### Helper lemmas about the resolver -/

theorem resolveNormalized_exact (n : List Char) (c : Coord)
    (h : lookupExact n = some c) : resolveNormalized n = c := by
  unfold resolveNormalized
  rw [h]

theorem resolveNormalized_of_none (n : List Char)
    (h : lookupExact n = none) :
    resolveNormalized n =
      match locationLookup.find? (fun p => jsIncludes n p.1.data) with
      | some p => p.2
      | none => puneCoord := by
  unfold resolveNormalized
  rw [h]

/-! ### Claims about the location resolver -/

/-- C1: for every location string, the resolver returns the table entry
whose key equals the trimmed, lowercased input when such a key exists;
otherwise it returns the entry of some table key occurring as a substring
of the normalized input; otherwise it falls back to the default Pune
coordinates. -/
theorem c1_location_resolution (s : String) :
    (∀ c : Coord, lookupExact (normalizeLoc s) = some c →
      getCoordsFromLocationString s = c) ∧
    (lookupExact (normalizeLoc s) = none →
      if locationLookup.any (fun p => jsIncludes (normalizeLoc s) p.1.data) then
        ∃ p ∈ locationLookup,
          jsIncludes (normalizeLoc s) p.1.data = true ∧
          getCoordsFromLocationString s = p.2
      else getCoordsFromLocationString s = puneCoord) := by
  constructor
  · intro c hc
    exact resolveNormalized_exact _ _ hc
  · intro hnone
    split
    case isTrue hany =>
      have hsome :
          ∃ p, locationLookup.find? (fun p => jsIncludes (normalizeLoc s) p.1.data)
            = some p := by
        rw [← Option.isSome_iff_exists, List.find?_isSome]
        obtain ⟨x, hx, hpx⟩ := List.any_eq_true.mp hany
        exact ⟨x, hx, hpx⟩
      obtain ⟨p, hp⟩ := hsome
      have hpx := (List.find?_eq_some.mp hp).1
      refine ⟨p, List.mem_of_find?_eq_some hp, hpx, ?_⟩
      show resolveNormalized (normalizeLoc s) = p.2
      rw [resolveNormalized_of_none _ hnone, hp]
    case isFalse hany =>
      show resolveNormalized (normalizeLoc s) = puneCoord
      rw [resolveNormalized_of_none _ hnone]
      have hn :
          locationLookup.find? (fun p => jsIncludes (normalizeLoc s) p.1.data)
            = none := by
        rw [List.find?_eq_none]
        intro x hx hpx
        exact hany (List.any_eq_true.mpr ⟨x, hx, hpx⟩)
      rw [hn]

theorem c1_location_resolution_witness :
    getCoordsFromLocationString "Kothrud" = ⟨18.5074, 73.8095⟩ ∧
    getCoordsFromLocationString "Springfield" = puneCoord := by
  constructor
  · exact (c1_location_resolution "Kothrud").1 ⟨18.5074, 73.8095⟩ rfl
  · have h := (c1_location_resolution "Springfield").2 rfl
    rw [if_neg (by decide)] at h
    exact h

/-- C8: when the normalized input is not an exact key, the resolver
returns the entry of the first-declared matching key in the table's
insertion order; in particular any input containing the substring pune
that is not itself an exact key resolves to the central Pune entry. -/
theorem c8_substring_first_match (s : String)
    (hexact : lookupExact (normalizeLoc s) = none) :
    (∀ p ∈ locationLookup, jsIncludes (normalizeLoc s) p.1.data = true →
      ∃ front q back, locationLookup = front ++ q :: back ∧
        jsIncludes (normalizeLoc s) q.1.data = true ∧
        (∀ r ∈ front, jsIncludes (normalizeLoc s) r.1.data = false) ∧
        getCoordsFromLocationString s = q.2) ∧
    (jsIncludes (normalizeLoc s) ("pune".data) = true →
      getCoordsFromLocationString s = puneCoord) := by
  constructor
  · intro p hmem hp
    have hsome :
        ∃ q, locationLookup.find? (fun r => jsIncludes (normalizeLoc s) r.1.data)
          = some q := by
      rw [← Option.isSome_iff_exists, List.find?_isSome]
      exact ⟨p, hmem, hp⟩
    obtain ⟨q, hq⟩ := hsome
    obtain ⟨hqp, front, back, heq, hall⟩ := List.find?_eq_some.mp hq
    refine ⟨front, q, back, heq, hqp, ?_, ?_⟩
    · intro r hr
      have := hall r hr
      simpa using this
    · show resolveNormalized (normalizeLoc s) = q.2
      rw [resolveNormalized_of_none _ hexact, hq]
  · intro hp
    have hfind :
        locationLookup.find? (fun r => jsIncludes (normalizeLoc s) r.1.data)
          = some ("pune", puneCoord) := by
      unfold locationLookup
      rw [List.find?_cons_of_pos]
      exact hp
    show resolveNormalized (normalizeLoc s) = puneCoord
    rw [resolveNormalized_of_none _ hexact, hfind]

theorem c8_substring_first_match_witness :
    getCoordsFromLocationString "Kothrud, Pune" = puneCoord :=
  (c8_substring_first_match "Kothrud, Pune" rfl).2 rfl

/-- C9: the resolver is total (every input resolves to some entry of the
table, with the pune entry as catch-all) and invariant under
normalization: resolving a string gives the same result as resolving its
trimmed, lowercased form. -/
theorem c9_total_normalization_invariant (s : String) :
    (∃ p ∈ locationLookup, getCoordsFromLocationString s = p.2) ∧
    getCoordsFromLocationString s =
      getCoordsFromLocationString (String.mk (normalizeLoc s)) := by
  constructor
  · show ∃ p ∈ locationLookup, resolveNormalized (normalizeLoc s) = p.2
    cases h : lookupExact (normalizeLoc s) with
    | some c =>
      obtain ⟨p, hp, hpc⟩ := Option.map_eq_some'.mp h
      refine ⟨p, List.mem_of_find?_eq_some hp, ?_⟩
      rw [resolveNormalized_exact _ _ h, hpc]
    | none =>
      rw [resolveNormalized_of_none _ h]
      cases h2 : locationLookup.find? (fun p => jsIncludes (normalizeLoc s) p.1.data) with
      | some p => exact ⟨p, List.mem_of_find?_eq_some h2, rfl⟩
      | none =>
        refine ⟨("pune", puneCoord), ?_, rfl⟩
        unfold locationLookup
        exact List.mem_cons_self _ _
  · show resolveNormalized (normalizeLoc s) =
      resolveNormalized (normalizeLoc (String.mk (normalizeLoc s)))
    rw [normalizeLoc_idem]

/-! ### Helper lemmas about the fetch effect -/

theorem fetchPrediction_pos (data : ForecastDataForResults)
    (api : RequestBody → ApiResponse) (h : 0 < data.acres) :
    fetchPrediction data api =
      if !(api ⟨data.latitude, data.longitude, data.acres⟩).ok then
        ⟨some ⟨data.latitude, data.longitude, data.acres⟩, none,
          some "API request failed"⟩
      else
        match (api ⟨data.latitude, data.longitude, data.acres⟩).predictedKwhMonth with
        | .num v =>
            ⟨some ⟨data.latitude, data.longitude, data.acres⟩, some v, none⟩
        | _ =>
            ⟨some ⟨data.latitude, data.longitude, data.acres⟩, none,
              some "Invalid prediction format received from API."⟩ := by
  unfold fetchPrediction
  rw [if_neg (by simp only [not_or]; exact ⟨ne_of_gt h, not_le.mpr h⟩)]

/-- An HTTP collaborator that always answers 200 with a numeric body. -/
def apiOk200 : RequestBody → ApiResponse := fun _ => ⟨200, .num 1234⟩

/-- An HTTP collaborator that always answers 500. -/
def apiErr500 : RequestBody → ApiResponse := fun _ => ⟨500, .num 1234⟩

/-- An HTTP collaborator that answers 200 with a body lacking the
`predicted_kwh_month` field. -/
def apiBad200 : RequestBody → ApiResponse := fun _ => ⟨200, .absent⟩

/-- Sample resolved forecast data with positive acres. -/
def sampleData : ForecastDataForResults := ⟨18.5204, 73.8567, 5, 500, "Pune"⟩

/-- Sample resolved forecast data with zero acres. -/
def sampleDataZero : ForecastDataForResults := ⟨18.5204, 73.8567, 0, 500, "Pune"⟩

/-! ### Claims about the prediction request flow -/

/-- C2: for acres ≤ 0 (including missing/zero acres), the prediction flow
stores an invalid-land-area error before any network work: no request
body is sent, no prediction is produced, and the outcome does not depend
on the HTTP collaborator at all. -/
theorem c2_invalid_land_area (data : ForecastDataForResults)
    (api : RequestBody → ApiResponse) (h : data.acres ≤ 0) :
    (fetchPrediction data api).request = none ∧
    (fetchPrediction data api).prediction = none ∧
    (fetchPrediction data api).error =
      some "Invalid input: Acres must be a positive number." ∧
    (∀ api2 : RequestBody → ApiResponse,
      fetchPrediction data api = fetchPrediction data api2) := by
  have hcond : data.acres = 0 ∨ data.acres ≤ 0 := Or.inr h
  refine ⟨?_, ?_, ?_, ?_⟩
  · unfold fetchPrediction; rw [if_pos hcond]
  · unfold fetchPrediction; rw [if_pos hcond]
  · unfold fetchPrediction; rw [if_pos hcond]
  · intro api2
    unfold fetchPrediction
    rw [if_pos hcond, if_pos hcond]

theorem c2_invalid_land_area_witness :
    (fetchPrediction sampleDataZero apiOk200).request = none ∧
    (fetchPrediction sampleDataZero apiOk200).prediction = none := by
  have h := c2_invalid_land_area sampleDataZero apiOk200 (le_refl 0)
  exact ⟨h.1, h.2.1⟩

/-- C3: whenever a request is issued (acres > 0), the body sent to the
prediction endpoint is exactly the three fields latitude, longitude and
acres, copied verbatim from the resolved forecast data; `RequestBody`
has no consumption or location field. -/
theorem c3_request_body_exact (data : ForecastDataForResults)
    (api : RequestBody → ApiResponse) (h : 0 < data.acres) :
    (fetchPrediction data api).request =
      some ⟨data.latitude, data.longitude, data.acres⟩ := by
  rw [fetchPrediction_pos data api h]
  cases hok : (api ⟨data.latitude, data.longitude, data.acres⟩).ok
  · rfl
  · cases hjf : (api ⟨data.latitude, data.longitude, data.acres⟩).predictedKwhMonth <;> rfl

theorem c3_request_body_exact_witness :
    (fetchPrediction sampleData apiOk200).request =
      some ⟨18.5204, 73.8567, 5⟩ :=
  c3_request_body_exact sampleData apiOk200 (by norm_num [sampleData])

/-- C4: with acres > 0, the client stores a prediction value exactly when
the response status is 2xx and the body carries a numeric, non-NaN
`predicted_kwh_month`; every non-2xx status, and every 2xx body without
such a field, leaves the stored prediction null and sets the error
state. -/
theorem c4_response_acceptance (data : ForecastDataForResults)
    (api : RequestBody → ApiResponse) (h : 0 < data.acres) :
    (∀ v : ℚ,
      (fetchPrediction data api).prediction = some v ↔
        ((api ⟨data.latitude, data.longitude, data.acres⟩).ok = true ∧
          (api ⟨data.latitude, data.longitude, data.acres⟩).predictedKwhMonth
            = JsonNumField.num v)) ∧
    (((api ⟨data.latitude, data.longitude, data.acres⟩).ok = false ∨
        ∀ v : ℚ, (api ⟨data.latitude, data.longitude, data.acres⟩).predictedKwhMonth
          ≠ JsonNumField.num v) →
      (fetchPrediction data api).prediction = none ∧
      (fetchPrediction data api).error ≠ none) := by
  rw [fetchPrediction_pos data api h]
  constructor
  · intro v
    cases hok : (api ⟨data.latitude, data.longitude, data.acres⟩).ok
    · simp
    · cases hjf : (api ⟨data.latitude, data.longitude, data.acres⟩).predictedKwhMonth <;>
        simp
  · rintro (hok | hnum)
    · rw [hok]
      simp
    · cases hok : (api ⟨data.latitude, data.longitude, data.acres⟩).ok
      · simp
      · cases hjf : (api ⟨data.latitude, data.longitude, data.acres⟩).predictedKwhMonth
        case num v => exact absurd hjf (hnum v)
        all_goals simp

theorem c4_response_acceptance_witness :
    (fetchPrediction sampleData apiOk200).prediction = some 1234 ∧
    (fetchPrediction sampleData apiErr500).prediction = none ∧
    (fetchPrediction sampleData apiBad200).prediction = none := by
  refine ⟨?_, ?_, ?_⟩
  · exact ((c4_response_acceptance sampleData apiOk200
      (by norm_num [sampleData])).1 1234).mpr ⟨rfl, rfl⟩
  · exact ((c4_response_acceptance sampleData apiErr500
      (by norm_num [sampleData])).2 (Or.inl rfl)).1
  · exact ((c4_response_acceptance sampleData apiBad200
      (by norm_num [sampleData])).2 (Or.inr (fun v hv => JsonNumField.noConfusion hv))).1

/-! ### Claim about the form gate -/

/-- C5: the form invokes `onSubmit` exactly when acres > 0,
consumption > 0 and the trimmed location is non-empty; every submission
handed up therefore has positive acres, and violating inputs never reach
`onSubmit`. -/
theorem c5_form_gates_submission (formData : FormInputData) :
    (handleSubmit formData = some formData ↔
      (0 < formData.acres ∧ 0 < formData.consumption ∧
        jsTrim formData.location.data ≠ [])) ∧
    (∀ d, handleSubmit formData = some d → d = formData ∧ 0 < d.acres) ∧
    (¬(0 < formData.acres ∧ 0 < formData.consumption ∧
        jsTrim formData.location.data ≠ []) →
      handleSubmit formData = none) := by
  unfold handleSubmit
  split
  case isTrue hcond =>
    refine ⟨⟨fun _ => hcond, fun _ => rfl⟩, ?_, fun hn => absurd hcond hn⟩
    intro d hd
    have he : formData = d := Option.some.inj hd
    exact ⟨he.symm, he ▸ hcond.1⟩
  case isFalse hcond =>
    refine ⟨⟨fun he => Option.noConfusion he, fun hc => absurd hc hcond⟩,
      ?_, fun _ => rfl⟩
    intro d hd
    exact Option.noConfusion hd

theorem c5_form_gates_submission_witness :
    handleSubmit ⟨"Pune", 5, 500⟩ = some ⟨"Pune", 5, 500⟩ ∧
    handleSubmit ⟨"Pune", 0, 500⟩ = none := by
  constructor
  · exact (c5_form_gates_submission ⟨"Pune", 5, 500⟩).1.mpr
      ⟨by norm_num, by norm_num, by decide⟩
  · exact (c5_form_gates_submission ⟨"Pune", 0, 500⟩).2.2
      (by intro hc; exact absurd hc.1 (by norm_num))

/-! ### Claims about the specified backend pipeline -/

theorem sum_map_const_of_mem {α : Type} (l : List α) (f : α → ℚ) (c : ℚ)
    (h : ∀ x ∈ l, f x = c) : (l.map f).sum = c * l.length := by
  induction l with
  | nil => simp
  | cons a t ih =>
    simp only [List.map_cons, List.sum_cons, List.length_cons]
    rw [h a (List.mem_cons_self a t),
      ih (fun x hx => h x (List.mem_cons.mpr (Or.inr hx)))]
    push_cast
    ring

/-- C6: for a non-empty sequence of daily yields and positive acres, the
monthly estimate is the arithmetic mean of the per-day kwh_per_acre
values times acres times 30.4; a constant per-acre yield of 20.0 with
acres = 5 gives 3040.0 kWh/month. -/
theorem c6_monthly_estimate (dailyYields : List DailyYield) (acres : ℚ)
    (hne : dailyYields ≠ []) (hacres : 0 < acres) :
    MonthlyEstimator.estimate dailyYields acres =
      .ok ⟨(dailyYields.map (fun y => y.kwhPerAcre)).sum / dailyYields.length
        * acres * 30.4⟩ ∧
    ((∀ y ∈ dailyYields, y.kwhPerAcre = 20) → acres = 5 →
      MonthlyEstimator.estimate dailyYields acres = .ok ⟨3040⟩) := by
  have hni : ¬(dailyYields.isEmpty = true) := by
    cases dailyYields with
    | nil => exact absurd rfl hne
    | cons a t => simp
  have hn0 : (dailyYields.length : ℚ) ≠ 0 := by
    have := List.length_pos.mpr hne
    positivity
  constructor
  · unfold MonthlyEstimator.estimate
    rw [if_neg hni]
  · intro hy ha
    unfold MonthlyEstimator.estimate
    rw [if_neg hni]
    show (Except.ok
        (MonthlyEstimate.mk
          ((dailyYields.map (fun y => y.kwhPerAcre)).sum / dailyYields.length
            * acres * 30.4)) : Except PipelineError MonthlyEstimate)
      = Except.ok ⟨3040⟩
    rw [sum_map_const_of_mem dailyYields _ 20 hy, ha, mul_div_assoc,
      div_self hn0, mul_one]
    norm_num

theorem c6_monthly_estimate_witness :
    MonthlyEstimator.estimate [⟨1, 20⟩, ⟨2, 20⟩] 5 = .ok ⟨3040⟩ :=
  (c6_monthly_estimate [⟨1, 20⟩, ⟨2, 20⟩] 5 (by simp) (by norm_num)).2
    (by decide) rfl

/-- C7: the empty hourly sequence makes the aggregator fail with
EmptyForecastError, and the empty sequence of daily yields makes the
monthly estimator fail with EmptyForecastError, for every acres value. -/
theorem c7_empty_inputs_fail :
    WeatherAggregator.aggregate [] = .error .emptyForecastError ∧
    ∀ acres : ℚ, MonthlyEstimator.estimate [] acres = .error .emptyForecastError :=
  ⟨rfl, fun _ => rfl⟩

/-! ### Claim about the coverage percentage -/

/-- C10: the displayed coverage percentage is the rounded ratio clamped
into the interval from 0 to 100 when consumption is positive, is 0 when
consumption is not positive, and always lies between 0 and 100; the
division is only taken under the positivity guard. -/
theorem c10_coverage_guarded_clamped (actualOutput consumption : ℚ) :
    (0 < consumption →
      coveragePercent actualOutput consumption =
        max 0 (min 100 (jsRound (actualOutput / consumption * 100)))) ∧
    (consumption ≤ 0 → coveragePercent actualOutput consumption = 0) ∧
    0 ≤ coveragePercent actualOutput consumption ∧
    coveragePercent actualOutput consumption ≤ 100 := by
  unfold coveragePercent
  split
  case isTrue hpos =>
    exact ⟨fun _ => rfl, fun hle => absurd hpos (not_lt.mpr hle),
      le_max_left _ _, max_le (by norm_num) (min_le_left _ _)⟩
  case isFalse hneg =>
    exact ⟨fun hp => absurd hp hneg, fun _ => rfl, le_refl 0, by norm_num⟩

theorem c10_coverage_guarded_clamped_witness :
    coveragePercent 250 500 = 50 ∧ coveragePercent 100 0 = 0 := by
  constructor
  · have h := (c10_coverage_guarded_clamped 250 500).1 (by norm_num)
    have hj : jsRound (250 / 500 * 100 : ℚ) = 50 := by
      unfold jsRound
      rw [Int.floor_eq_iff]
      constructor <;> norm_num
    rw [h, hj]
    norm_num
  · exact (c10_coverage_guarded_clamped 100 0).2.1 (le_refl 0)
